import Mathlib

/-!
Shallow embedding of `src/main.py` (a single-shot scrape-and-save utility):
URL selection (`pick_url`), response encoding detection (`detect_encoding`),
fetching and lossy decoding (`fetch_html`), persistence (`write_html`) and
the top-level driver (`main`).

Python strings are modelled as `List Nat` of Unicode code points where byte
level fidelity matters (the fetcher's decode and the persister's UTF-8
write), and as Lean `String` elsewhere.  Byte sequences are `List Nat`
(each entry `< 256` in intended use).  The external effects — the network
request performed by `urllib.request.urlopen` and the filesystem calls made
by `pathlib.Path` — are oracles passed in as explicit outcome values, so the
control flow of the Python source is embedded exactly while the
environment's behaviour stays a parameter.
-/

/-- The Python exception classes that can cross the function boundaries of
`main.py`: `ValueError` (raised by `pick_url`), `urllib.error.URLError`
(transport failures raised by `urlopen`), `TimeoutError` (deadline
exceeded), and an `OSError` that is not a `URLError` (e.g. `PermissionError`
from `Path.mkdir` / `Path.write_text`). -/
inductive PyExc where
  | valueError (msg : String)
  | urlError (msg : String)
  | timeoutError (msg : String)
  | osError (msg : String)
deriving DecidableEq, Repr

/-- The `str(exc)` description used by `main`'s diagnostic line. -/
def PyExc.description : PyExc → String
  | .valueError m => m
  | .urlError m => m
  | .timeoutError m => m
  | .osError m => m

/-- Whether an exception is the `Timeout` kind of the spec's taxonomy. -/
def PyExc.isTimeout : PyExc → Bool
  | .timeoutError _ => true
  | _ => false

/-- Whether an exception is the `NetworkError` kind of the spec's
taxonomy (`urllib.error.URLError`). -/
def PyExc.isNetworkError : PyExc → Bool
  | .urlError _ => true
  | _ => false

/-- Modelled from the spec: `random.Random(seedVal).choice(population)`
chooses an index uniformly below the population size, as a deterministic
function of the seed value.  The Mersenne Twister itself is outside the
repository; it is abstracted here as a concrete pseudo-random index
function (a linear congruential step reduced modulo the population size).
The claims about `pick_url` depend only on the index being a pure function
of `(seedVal, n)` and on it being `< n` when `n > 0`. -/
def randomIndex (seedVal : Int) (n : Nat) : Nat :=
  ((seedVal.natAbs * 1103515245 + 12345) % 2147483648) % n

/-- Embedding of `pick_url(urls, seed)` (src/main.py lines 21-26).
`entropy` stands for the system-entropy seed that `random.Random(None)`
draws when no seed is given: `seed.getD entropy` is the value actually
seeding the generator.  An empty population raises
`ValueError("URL list is empty")`. -/
def pick_url (urls : List String) (seed : Option Int) (entropy : Int) :
    Except PyExc String :=
  let population := urls
  if population.isEmpty then
    .error (.valueError ("URL list is empty"))
  else
    let idx := randomIndex (seed.getD entropy) population.length
    .ok (population.getD idx (""))

/-- Python `str.replace(pat, rep)`: replace every non-overlapping occurrence
of `pat`, scanning left to right.  The `fuel` argument is only a structural
termination device; `listReplace` below always supplies `s.length`, which
is sufficient because every step consumes at least one element of `s`. -/
def listReplaceFuel (pat rep : List Char) : Nat → List Char → List Char
  | 0, _ => []
  | fuel + 1, s =>
    match s with
    | [] => []
    | c :: t =>
      if pat ≠ [] ∧ pat.isPrefixOf (c :: t) then
        rep ++ listReplaceFuel pat rep fuel ((c :: t).drop pat.length)
      else
        c :: listReplaceFuel pat rep fuel t

/-- Python `s.replace(pat, rep)` on code-point lists (callers in `main.py`
only use non-empty patterns). -/
def listReplace (s pat rep : List Char) : List Char :=
  listReplaceFuel pat rep s.length s

/-- The URL sanitization of `write_html` (src/main.py line 51):
`url.replace("://", "_").replace("/", "_")`. -/
def sanitize (url : String) : String :=
  String.mk (listReplace (listReplace url.data ("://".data) ("_".data)) ("/".data) ("_".data))

/-- A Unicode scalar value: a code point below `0x110000` that is not a
surrogate.  These are exactly the code points Python can encode to UTF-8. -/
def isScalar (n : Nat) : Prop := n < 0x110000 ∧ ¬(0xD800 ≤ n ∧ n ≤ 0xDFFF)

instance (n : Nat) : Decidable (isScalar n) := by
  unfold isScalar; infer_instance

/-- UTF-8 encoding of one Unicode scalar value, as the CPython `utf-8`
codec produces it. -/
def utf8EncodeCp (n : Nat) : List Nat :=
  if n < 0x80 then [n]
  else if n < 0x800 then [0xC0 + n / 64, 0x80 + n % 64]
  else if n < 0x10000 then
    [0xE0 + n / 4096, 0x80 + n / 64 % 64, 0x80 + n % 64]
  else
    [0xF0 + n / 262144, 0x80 + n / 4096 % 64, 0x80 + n / 64 % 64, 0x80 + n % 64]

/-- UTF-8 encoding of a whole string of code points (Python
`text.encode("utf-8")`). -/
def utf8Encode (cps : List Nat) : List Nat :=
  (cps.map utf8EncodeCp).flatten

/-- One step of UTF-8 decoding with `errors="replace"`: given the first
byte and the remaining bytes, return the decoded code point (the
replacement character `U+FFFD` for malformed input: bad lead bytes,
missing or bad continuation bytes, overlong forms, surrogates,
out-of-range values) together with the bytes still to decode. -/
def utf8Step (b1 : Nat) (t1 : List Nat) : Nat × List Nat :=
  let b2 := t1.getD 0 0
  let b3 := t1.getD 1 0
  let b4 := t1.getD 2 0
  if b1 < 0x80 then (b1, t1)
  else if 0xC2 ≤ b1 ∧ b1 < 0xE0 then
    if 0x80 ≤ b2 ∧ b2 < 0xC0 then
      ((b1 - 0xC0) * 64 + (b2 - 0x80), t1.drop 1)
    else (0xFFFD, t1)
  else if 0xE0 ≤ b1 ∧ b1 < 0xF0 then
    if 2 ≤ t1.length ∧ (0x80 ≤ b2 ∧ b2 < 0xC0) ∧ (0x80 ≤ b3 ∧ b3 < 0xC0) then
      let n := (b1 - 0xE0) * 4096 + (b2 - 0x80) * 64 + (b3 - 0x80)
      if n < 0x800 ∨ (0xD800 ≤ n ∧ n ≤ 0xDFFF) then (0xFFFD, t1.drop 2)
      else (n, t1.drop 2)
    else (0xFFFD, t1)
  else if 0xF0 ≤ b1 ∧ b1 < 0xF5 then
    if 3 ≤ t1.length ∧ (0x80 ≤ b2 ∧ b2 < 0xC0) ∧ (0x80 ≤ b3 ∧ b3 < 0xC0) ∧
        (0x80 ≤ b4 ∧ b4 < 0xC0) then
      let n := (b1 - 0xF0) * 262144 + (b2 - 0x80) * 4096 +
        (b3 - 0x80) * 64 + (b4 - 0x80)
      if n < 0x10000 ∨ 0x110000 ≤ n then (0xFFFD, t1.drop 3)
      else (n, t1.drop 3)
    else (0xFFFD, t1)
  else (0xFFFD, t1)

/-- Fuelled driver for the UTF-8 replace-decoder.  The `fuel` argument is
only a structural termination device: each step consumes at least one byte,
so `utf8DecodeReplace` below always supplies enough fuel. -/
def utf8DecodeFuel : Nat → List Nat → List Nat
  | 0, _ => []
  | _ + 1, [] => []
  | fuel + 1, b1 :: t1 =>
    let p := utf8Step b1 t1
    p.1 :: utf8DecodeFuel fuel p.2

/-- UTF-8 decoding with `errors="replace"` (Python
`bytes.decode("utf-8", errors="replace")`): total on all byte sequences;
well-formed sequences decode to their scalar values and malformed input
yields `U+FFFD`.  The number of replacement characters emitted for a
malformed run approximates CPython's maximal-subpart policy; no claim
depends on that count. -/
def utf8DecodeReplace (bs : List Nat) : List Nat :=
  utf8DecodeFuel bs.length bs

example : pick_url [] (some 7) 3 = .error (.valueError ("URL list is empty")) := rfl
example : sanitize ("https://a.com/b/c") = "https_a.com_b_c" := by decide
example : utf8DecodeReplace (utf8Encode [0x41, 0xE9, 0x20AC, 0x1F600]) =
    [0x41, 0xE9, 0x20AC, 0x1F600] := by decide
example : utf8DecodeReplace [0x68, 0xFF, 0x69] = [0x68, 0xFFFD, 0x69] := by decide

/-- The header collection of an HTTP response (`response.headers`, an
`email.message.Message`).  `entries` is the list of header name/value
pairs; the Python test `if headers:` asks whether this list is non-empty
(`Message.__len__`).  `contentCharset` is the result of
`headers.get_content_charset()`: the charset parameter of the content-type
header when one is declared, `none` otherwise (modelled as a field because
the `email` package's MIME-parameter parsing is outside the repository). -/
structure HTTPHeaders where
  entries : List (String × String)
  contentCharset : Option String
deriving DecidableEq, Repr

/-- An HTTP response as `urllib.request.urlopen` returns it
(`addinfourl`): its headers and the raw body bytes `resp.read()` yields. -/
structure Response where
  headers : HTTPHeaders
  body : List Nat
deriving DecidableEq, Repr

/-- Embedding of `detect_encoding(response)` (src/main.py lines 29-35):
when the header collection is truthy and declares a truthy charset, return
it; otherwise return `"utf-8"`. -/
def detect_encoding (response : Response) : String :=
  let headers := response.headers
  if ¬headers.entries.isEmpty then
    match headers.contentCharset with
    | some ct => if ¬(ct = "") then ct else ("utf-8")
    | none => "utf-8"
  else ("utf-8")

/-- The Latin-1 (`iso-8859-1`) decoder: every byte is the code point of the
character it denotes, so decoding is the identity on the byte values. -/
def latin1Decode (bs : List Nat) : List Nat := bs

/-- Modelled from the spec: `bytes.decode(encoding, errors="replace")` for
the encodings the spec exercises.  The codec registry outside `utf-8` and
`iso-8859-1` is not modelled; the various aliases of Latin-1 dispatch to
`latin1Decode` and everything else decodes as UTF-8 (the default the spec
names). -/
def pyDecode (encoding : String) (bs : List Nat) : List Nat :=
  if encoding = "iso-8859-1" ∨ encoding = "latin-1" ∨ encoding = "latin1" then
    latin1Decode bs
  else
    utf8DecodeReplace bs

/-- The possible outcomes of the network interaction performed by
`urllib.request.urlopen(req, timeout=timeout)` together with
`resp.read()`, passed to `fetch_html` as an oracle: a complete response, a
deadline overrun (raising `TimeoutError`), or a transport failure — DNS,
connection or protocol error — (raising `urllib.error.URLError`). -/
inductive NetOutcome where
  | ok (resp : Response)
  | timedOut
  | netError (msg : String)
deriving DecidableEq, Repr

/-- Embedding of `fetch_html(url, timeout)` (src/main.py lines 38-46): the
request itself is the `net` oracle; on a completed response the body is
decoded with the detected encoding using `errors="replace"`, and the two
failure outcomes re-raise as the corresponding exceptions. -/
def fetch_html (net : NetOutcome) : Except PyExc (List Nat) :=
  match net with
  | .ok resp => .ok (pyDecode (detect_encoding resp) resp.body)
  | .timedOut => .error (.timeoutError ("The read operation timed out"))
  | .netError m => .error (.urlError m)

/-- A local-time timestamp at second resolution, as
`datetime.datetime.now()` exposes it to `strftime("%Y%m%d-%H%M%S")`.
`datetime` guarantees `1 ≤ year ≤ 9999`, `1 ≤ month ≤ 12`, `1 ≤ day ≤ 31`,
`hour ≤ 23`, `minute ≤ 59`, `second ≤ 59`; theorems assume the bounds they
need. -/
structure Timestamp where
  year : Nat
  month : Nat
  day : Nat
  hour : Nat
  minute : Nat
  second : Nat
deriving DecidableEq, Repr

/-- A zero-padded two-digit decimal field (`%m`, `%d`, `%H`, `%M`, `%S` in
the strftime format, i.e. printf `%02d`): two digit characters for the
values `< 100` datetime guarantees, the plain decimal numeral beyond. -/
def pad2 (n : Nat) : List Char :=
  if n < 100 then [Nat.digitChar (n / 10 % 10), Nat.digitChar (n % 10)]
  else (Nat.repr n).data

/-- A zero-padded four-digit decimal field (`%Y` in the strftime format,
i.e. printf `%04d`): four digit characters for the values `< 10000`
datetime guarantees, the plain decimal numeral beyond. -/
def pad4 (n : Nat) : List Char :=
  if n < 10000 then
    [Nat.digitChar (n / 1000 % 10), Nat.digitChar (n / 100 % 10),
     Nat.digitChar (n / 10 % 10), Nat.digitChar (n % 10)]
  else (Nat.repr n).data

/-- The timestamp string `dt.datetime.now().strftime("%Y%m%d-%H%M%S")`
(src/main.py line 50). -/
def formatTimestamp (t : Timestamp) : String :=
  String.mk (pad4 t.year ++ pad2 t.month ++ pad2 t.day ++ ['-'] ++
    pad2 t.hour ++ pad2 t.minute ++ pad2 t.second)

/-- The filename `f"scrape_{timestamp}_{safe_name}.html"` derived by
`write_html` (src/main.py lines 50-52). -/
def scrapeFilename (t : Timestamp) (url : String) : String :=
  "scrape_" ++ formatTimestamp t ++ "_" ++ sanitize url ++ ".html"

/-- A flat model of the files visible to the program: an association list
from paths to byte contents, most recent write first. -/
abbrev FS := List (String × List Nat)

/-- The possible outcomes of the filesystem calls made by `write_html`
(`output_dir.mkdir(...)` and `filepath.write_text(...)`), passed in as an
oracle: both calls succeed, or one of them raises an `OSError` (e.g.
`PermissionError`) that is not a `urllib.error.URLError`. -/
inductive WriteOutcome where
  | ok
  | ioFailure (msg : String)
deriving DecidableEq, Repr

/-- Embedding of `write_html(contents, output_dir, url)` (src/main.py
lines 49-56): derive the timestamped filename, create the directory, write
`contents` UTF-8-encoded at `output_dir/filename` and return that path.
The timestamp oracle `ts` is the value of `dt.datetime.now()`; the `io`
oracle decides whether the two filesystem calls succeed. -/
def write_html (io : WriteOutcome) (fs : FS) (ts : Timestamp)
    (contents : List Nat) (output_dir : String) (url : String) :
    Except PyExc (FS × String) :=
  match io with
  | .ioFailure m => .error (.osError m)
  | .ok =>
    let filename := scrapeFilename ts url
    let filepath := output_dir ++ "/" ++ filename
    .ok ((filepath, utf8Encode contents) :: fs, filepath)

/-- Everything observable about one run of `main` (src/main.py lines
90-102): the return value when `main` returns, the lines printed to stdout
and stderr, the resulting filesystem, and the exception when one escapes
the `except` clause uncaught. -/
structure RunResult where
  exitCode : Option Nat
  stdoutLines : List String
  stderrLines : List String
  fs : FS
  uncaught : Option PyExc
deriving DecidableEq, Repr

/-- Which exceptions the `except (ValueError, urllib.error.URLError,
TimeoutError)` clause of `main` (src/main.py line 96) catches.  An
`OSError` that is not a `URLError` matches none of the three classes. -/
def caughtByMain : PyExc → Bool
  | .valueError _ => true
  | .urlError _ => true
  | .timeoutError _ => true
  | .osError _ => false

/-- Embedding of `main(argv)` after argument parsing (src/main.py lines
90-102): run `pick_url`, `fetch_html`, `write_html` in sequence; convert a
caught exception into the single diagnostic line
`"Scrape failed: {exc}"` on stderr and return value 1; let any other
exception escape; on success print the two report lines and return 0.
(Named `main_run` because Lean reserves `main` for program entry points.) -/
def main_run (urls : List String) (seed : Option Int) (entropy : Int)
    (net : NetOutcome) (io : WriteOutcome) (ts : Timestamp)
    (output_dir : String) (fs : FS) : RunResult :=
  let pipeline : Except PyExc (String × FS × String) := do
    let url ← pick_url urls seed entropy
    let html ← fetch_html net
    let (fs2, path) ← write_html io fs ts html output_dir url
    pure (url, fs2, path)
  match pipeline with
  | .ok (url, fs2, path) =>
    ⟨some 0, ["Scraped " ++ url, "HTML saved to " ++ path], [], fs2, none⟩
  | .error exc =>
    if caughtByMain exc then
      ⟨some 1, [], ["Scrape failed: " ++ exc.description], fs, none⟩
    else
      ⟨none, [], [], fs, some exc⟩

/-- A concrete response declaring the Latin-1 charset, used to instantiate
the encoding-detection statements: its body is the single Latin-1 byte
`0xE9` (`é`). -/
def latin1Resp : Response :=
  ⟨⟨[("Content-Type", "text/html; charset=ISO-8859-1")], some ("iso-8859-1")⟩,
    [0xE9]⟩

/-! ## Lemmas about the UTF-8 codec -/

theorem utf8Step_snd_length (b1 : Nat) (t1 : List Nat) :
    (utf8Step b1 t1).2.length ≤ t1.length := by
  unfold utf8Step
  dsimp only
  split_ifs <;> simp [List.length_drop, List.length_tail]

theorem utf8DecodeFuel_eq (f : Nat) : ∀ (s : List Nat) (g : Nat),
    s.length ≤ f → s.length ≤ g → utf8DecodeFuel f s = utf8DecodeFuel g s := by
  induction f with
  | zero =>
    intro s g hf _
    have hs : s = [] := List.eq_nil_of_length_eq_zero (Nat.le_zero.mp hf)
    subst hs
    cases g <;> rfl
  | succ f ih =>
    intro s g hf hg
    match s with
    | [] => cases g <;> rfl
    | b :: t =>
      match g with
      | 0 => simp at hg
      | g + 1 =>
        show (utf8Step b t).1 :: utf8DecodeFuel f (utf8Step b t).2 =
          (utf8Step b t).1 :: utf8DecodeFuel g (utf8Step b t).2
        have hlen := utf8Step_snd_length b t
        simp only [List.length_cons] at hf hg
        rw [ih (utf8Step b t).2 g (by omega) (by omega)]

theorem utf8DecodeReplace_cons (b : Nat) (t : List Nat) :
    utf8DecodeReplace (b :: t) =
      (utf8Step b t).1 :: utf8DecodeReplace (utf8Step b t).2 := by
  show utf8DecodeFuel (t.length + 1) (b :: t) = _
  show (utf8Step b t).1 :: utf8DecodeFuel t.length (utf8Step b t).2 = _
  unfold utf8DecodeReplace
  rw [utf8DecodeFuel_eq t.length (utf8Step b t).2 (utf8Step b t).2.length
    (utf8Step_snd_length b t) le_rfl]

theorem utf8Encode_cons (c : Nat) (cs : List Nat) :
    utf8Encode (c :: cs) = utf8EncodeCp c ++ utf8Encode cs := by
  simp [utf8Encode]

/-- Decoding a well-formed encoded scalar consumes exactly its bytes and
yields the scalar back. -/
theorem utf8DecodeReplace_encodeCp (n : Nat) (h : isScalar n) (rest : List Nat) :
    utf8DecodeReplace (utf8EncodeCp n ++ rest) = n :: utf8DecodeReplace rest := by
  obtain ⟨hlt, hsur⟩ := h
  by_cases h1 : n < 0x80
  · have henc : utf8EncodeCp n = [n] := by unfold utf8EncodeCp; rw [if_pos h1]
    rw [henc, List.cons_append, List.nil_append, utf8DecodeReplace_cons]
    have hstep : utf8Step n rest = (n, rest) := by
      unfold utf8Step
      rw [if_pos h1]
    rw [hstep]
  · by_cases h2 : n < 0x800
    · have henc : utf8EncodeCp n = [0xC0 + n / 64, 0x80 + n % 64] := by
        unfold utf8EncodeCp; rw [if_neg h1, if_pos h2]
      rw [henc, List.cons_append, List.cons_append, List.nil_append,
        utf8DecodeReplace_cons]
      have hstep : utf8Step (0xC0 + n / 64) ((0x80 + n % 64) :: rest) = (n, rest) := by
        unfold utf8Step
        simp only [List.getD_cons_zero, List.drop_succ_cons, List.drop_zero]
        rw [if_neg (by omega), if_pos (by constructor <;> omega),
          if_pos (by constructor <;> omega)]
        simp only [Prod.mk.injEq]
        exact ⟨by omega, by trivial⟩
      rw [hstep]
    · by_cases h3 : n < 0x10000
      · have henc : utf8EncodeCp n =
            [0xE0 + n / 4096, 0x80 + n / 64 % 64, 0x80 + n % 64] := by
          unfold utf8EncodeCp; rw [if_neg h1, if_neg h2, if_pos h3]
        rw [henc, List.cons_append, List.cons_append, List.cons_append,
          List.nil_append, utf8DecodeReplace_cons]
        have hstep : utf8Step (0xE0 + n / 4096)
            ((0x80 + n / 64 % 64) :: (0x80 + n % 64) :: rest) = (n, rest) := by
          unfold utf8Step
          simp only [List.getD_cons_zero, List.getD_cons_succ,
            List.drop_succ_cons, List.drop_zero, List.length_cons]
          rw [if_neg (by omega), if_neg (by omega),
            if_pos (by constructor <;> omega),
            if_pos (by refine ⟨by omega, ⟨by omega, by omega⟩, by omega, by omega⟩),
            if_neg (by omega)]
          simp only [Prod.mk.injEq]
          exact ⟨by omega, by trivial⟩
        rw [hstep]
      · have henc : utf8EncodeCp n =
            [0xF0 + n / 262144, 0x80 + n / 4096 % 64, 0x80 + n / 64 % 64,
              0x80 + n % 64] := by
          unfold utf8EncodeCp; rw [if_neg h1, if_neg h2, if_neg h3]
        rw [henc, List.cons_append, List.cons_append, List.cons_append,
          List.cons_append, List.nil_append, utf8DecodeReplace_cons]
        have hstep : utf8Step (0xF0 + n / 262144)
            ((0x80 + n / 4096 % 64) :: (0x80 + n / 64 % 64) ::
              (0x80 + n % 64) :: rest) = (n, rest) := by
          unfold utf8Step
          simp only [List.getD_cons_zero, List.getD_cons_succ,
            List.drop_succ_cons, List.drop_zero, List.length_cons]
          rw [if_neg (by omega), if_neg (by omega), if_neg (by omega),
            if_pos (by constructor <;> omega),
            if_pos (by
              refine ⟨by omega, ⟨by omega, by omega⟩, ⟨by omega, by omega⟩,
                by omega, by omega⟩),
            if_neg (by omega)]
          simp only [Prod.mk.injEq]
          exact ⟨by omega, by trivial⟩
        rw [hstep]

/-- Encoding a sequence of Unicode scalar values to UTF-8 and decoding the
bytes back (with `errors="replace"`) restores the sequence exactly. -/
theorem utf8_roundtrip (cps : List Nat) (h : ∀ n ∈ cps, isScalar n) :
    utf8DecodeReplace (utf8Encode cps) = cps := by
  induction cps with
  | nil => rfl
  | cons c cs ih =>
    have hc : isScalar c := h c (by simp)
    have hcs : ∀ n ∈ cs, isScalar n := fun n hn => h n (by simp [hn])
    rw [utf8Encode_cons, utf8DecodeReplace_encodeCp c hc, ih hcs]

/-! ## Lemmas about sanitization and the timestamp format -/

/-- Replacing every `/` by `_` leaves no `/` in the result. -/
theorem listReplaceFuel_no_slash (f : Nat) :
    ∀ s : List Char, '/' ∉ listReplaceFuel ['/'] ['_'] f s := by
  induction f with
  | zero => intro s; simp [listReplaceFuel]
  | succ f ih =>
    intro s
    match s with
    | [] => simp [listReplaceFuel]
    | c :: t =>
      simp only [listReplaceFuel]
      split
      · intro hmem
        rcases List.mem_append.mp hmem with h1 | h2
        · simp at h1
        · exact ih _ h2
      · next hneg =>
        have hc : ¬('/' = c) := by
          intro hEq
          exact hneg ⟨by simp, by rw [← hEq]; simp [List.isPrefixOf]⟩
        intro hmem
        rcases List.mem_cons.mp hmem with h1 | h2
        · exact hc h1
        · exact ih t h2

/-- The decimal digit characters are digits. -/
theorem digitChar_mod10_isDigit (x : Nat) :
    (Nat.digitChar (x % 10)).isDigit = true := by
  have h : x % 10 < 10 := Nat.mod_lt _ (by norm_num)
  revert h
  generalize x % 10 = m
  intro h
  interval_cases m <;> rfl

/-! ## Claims -/

/-- C2: for the empty candidate list and every seed (present or absent),
`pick_url` fails with `ValueError("URL list is empty")` — the `InvalidInput`
error of the spec's taxonomy — and the failure happens before any network
activity: the run of `main` on an empty list does not depend on the network
oracle at all. -/
theorem pick_url_empty_invalid_input :
    (∀ (seed : Option Int) (entropy : Int),
      pick_url [] seed entropy = .error (.valueError ("URL list is empty"))) ∧
    (∀ (seed : Option Int) (entropy : Int) (net net' : NetOutcome)
      (io : WriteOutcome) (ts : Timestamp) (output_dir : String) (fs : FS),
      main_run [] seed entropy net io ts output_dir fs =
        main_run [] seed entropy net' io ts output_dir fs) :=
  ⟨fun _ _ => rfl, fun _ _ _ _ _ _ _ _ => rfl⟩

/-- C3: for every non-empty candidate list and fixed seed, `pick_url` is
deterministic: the result does not depend on the process-local entropy that
would seed the generator in the seedless case, so two calls with the same
list and seed agree. -/
theorem pick_url_deterministic (urls : List String) (s : Int) (e1 e2 : Int)
    (_h : urls ≠ []) :
    pick_url urls (some s) e1 = pick_url urls (some s) e2 := rfl

/-- Witness for C3 at a concrete list and seed. -/
theorem pick_url_deterministic_witness :
    (["https://a.com", "https://b.com"] ≠ ([] : List String)) ∧
    pick_url ["https://a.com", "https://b.com"] (some 5) 17 =
      pick_url ["https://a.com", "https://b.com"] (some 5) 99 :=
  ⟨by decide, pick_url_deterministic ["https://a.com", "https://b.com"] 5 17 99
    (by decide)⟩

/-- C10: for every non-empty candidate list and every seed, the URL
`pick_url` returns is an element of the input list. -/
theorem pick_url_mem (urls : List String) (seed : Option Int) (entropy : Int)
    (h : urls ≠ []) :
    ∃ u, pick_url urls seed entropy = .ok u ∧ u ∈ urls := by
  match urls, h with
  | u :: rest, _ =>
    refine ⟨_, rfl, ?_⟩
    have hlt : randomIndex (seed.getD entropy) (u :: rest).length <
        (u :: rest).length := Nat.mod_lt _ (by simp)
    rw [List.getD_eq_getElem _ _ hlt]
    exact List.getElem_mem hlt

/-- Witness for C10 at a concrete list and seed. -/
theorem pick_url_mem_witness :
    (["https://a.com", "https://b.com"] ≠ ([] : List String)) ∧
    ∃ u, pick_url ["https://a.com", "https://b.com"] (some 3) 0 = .ok u ∧
      u ∈ ["https://a.com", "https://b.com"] :=
  ⟨by decide, pick_url_mem ["https://a.com", "https://b.com"] (some 3) 0
    (by decide)⟩

/-- C4: the sanitization step of the persister turns
`"https://a.com/b/c"` into exactly `"https_a.com_b_c"`, and in general the
sanitized URL contains no `/` character: the `://` occurrence is collapsed
to `_` and every remaining `/` is replaced by `_`. -/
theorem sanitize_spec :
    sanitize ("https://a.com/b/c") = "https_a.com_b_c" ∧
    ∀ url : String, (sanitize url).data.count '/' = 0 := by
  refine ⟨by decide, ?_⟩
  intro url
  refine List.count_eq_zero.mpr ?_
  show '/' ∉ listReplace (listReplace url.data ("://".data) ("_".data))
    ("/".data) ("_".data)
  exact listReplaceFuel_no_slash _ _

/-- C5: the persisted filename is exactly
`scrape_<timestamp>_<sanitized-url>.html` where the timestamp is the write
time formatted as `YYYYMMDD-HHMMSS`: for the field ranges datetime
guarantees, the stamp is 15 characters long, carries exactly 14 decimal
digits, and has the `-` separator at position 8.  The filename is a pure
function of the timestamp and the URL by construction. -/
theorem scrapeFilename_shape (t : Timestamp) (url : String)
    (hy : t.year < 10000) (hmo : t.month < 100) (hd : t.day < 100)
    (hh : t.hour < 100) (hmi : t.minute < 100) (hs : t.second < 100) :
    scrapeFilename t url =
      "scrape_" ++ formatTimestamp t ++ "_" ++ sanitize url ++ ".html" ∧
    (formatTimestamp t).length = 15 ∧
    ((formatTimestamp t).data.filter Char.isDigit).length = 14 ∧
    (formatTimestamp t).data.getD 8 ' ' = '-' := by
  have hpad4 : pad4 t.year = [Nat.digitChar (t.year / 1000 % 10),
      Nat.digitChar (t.year / 100 % 10), Nat.digitChar (t.year / 10 % 10),
      Nat.digitChar (t.year % 10)] := by
    unfold pad4; rw [if_pos hy]
  have hpad2 : ∀ n : Nat, n < 100 →
      pad2 n = [Nat.digitChar (n / 10 % 10), Nat.digitChar (n % 10)] := by
    intro n hn; unfold pad2; rw [if_pos hn]
  have hfmt : (formatTimestamp t).data =
      [Nat.digitChar (t.year / 1000 % 10), Nat.digitChar (t.year / 100 % 10),
       Nat.digitChar (t.year / 10 % 10), Nat.digitChar (t.year % 10),
       Nat.digitChar (t.month / 10 % 10), Nat.digitChar (t.month % 10),
       Nat.digitChar (t.day / 10 % 10), Nat.digitChar (t.day % 10), '-',
       Nat.digitChar (t.hour / 10 % 10), Nat.digitChar (t.hour % 10),
       Nat.digitChar (t.minute / 10 % 10), Nat.digitChar (t.minute % 10),
       Nat.digitChar (t.second / 10 % 10), Nat.digitChar (t.second % 10)] := by
    show (pad4 t.year ++ pad2 t.month ++ pad2 t.day ++ ['-'] ++
      pad2 t.hour ++ pad2 t.minute ++ pad2 t.second) = _
    rw [hpad4, hpad2 _ hmo, hpad2 _ hd, hpad2 _ hh, hpad2 _ hmi, hpad2 _ hs]
    rfl
  refine ⟨rfl, ?_, ?_, ?_⟩
  · show (formatTimestamp t).data.length = 15
    rw [hfmt]
    rfl
  · rw [hfmt]
    have hminus : '-'.isDigit = false := rfl
    simp [List.filter_cons, digitChar_mod10_isDigit, hminus]
  · rw [hfmt]
    rfl

/-- Witness for C5 at a concrete timestamp and URL, checking the concrete
filename on the side. -/
theorem scrapeFilename_shape_witness :
    ((2026 : Nat) < 10000 ∧ (10 : Nat) < 100 ∧ (12 : Nat) < 100 ∧
      (13 : Nat) < 100 ∧ (45 : Nat) < 100 ∧ (9 : Nat) < 100) ∧
    (scrapeFilename ⟨2026, 10, 12, 13, 45, 9⟩ "https://example.com/a" =
      "scrape_" ++ formatTimestamp ⟨2026, 10, 12, 13, 45, 9⟩ ++ "_" ++
        sanitize ("https://example.com/a") ++ ".html" ∧
     (formatTimestamp ⟨2026, 10, 12, 13, 45, 9⟩).length = 15 ∧
     ((formatTimestamp ⟨2026, 10, 12, 13, 45, 9⟩).data.filter
        Char.isDigit).length = 14 ∧
     (formatTimestamp ⟨2026, 10, 12, 13, 45, 9⟩).data.getD 8 ' ' = '-') ∧
    scrapeFilename ⟨2026, 10, 12, 13, 45, 9⟩ "https://example.com/a" =
      "scrape_20261012-134509_https_example.com_a.html" :=
  ⟨by norm_num,
   scrapeFilename_shape ⟨2026, 10, 12, 13, 45, 9⟩ "https://example.com/a"
     (by norm_num) (by norm_num) (by norm_num) (by norm_num) (by norm_num)
     (by norm_num),
   by decide⟩

/-- C6: the fetcher decodes the body with the charset declared in the
response's content-type metadata when one is present, and with UTF-8 when
none is declared; in particular a response declaring `iso-8859-1` is
decoded by the Latin-1 decoder and one declaring nothing by the UTF-8
decoder. -/
theorem detect_encoding_spec :
    (∀ (resp : Response) (ct : String), resp.headers.entries ≠ [] →
      resp.headers.contentCharset = some ct → ct ≠ "" →
      fetch_html (.ok resp) = .ok (pyDecode ct resp.body)) ∧
    (∀ resp : Response, resp.headers.contentCharset = none →
      fetch_html (.ok resp) = .ok (utf8DecodeReplace resp.body)) ∧
    (∀ body : List Nat,
      fetch_html (.ok ⟨⟨[("Content-Type", "text/html; charset=ISO-8859-1")],
          some ("iso-8859-1")⟩, body⟩) = .ok (latin1Decode body)) ∧
    (∀ body : List Nat,
      fetch_html (.ok ⟨⟨[("Content-Type", "text/html")], none⟩, body⟩) =
        .ok (utf8DecodeReplace body)) := by
  refine ⟨?_, ?_, fun _ => rfl, fun _ => rfl⟩
  · intro resp ct hne hcs hct
    show Except.ok (pyDecode (detect_encoding resp) resp.body) = _
    have : detect_encoding resp = ct := by
      unfold detect_encoding
      rw [if_pos (by simpa [List.isEmpty_iff] using hne), hcs]
      simp only
      rw [if_pos hct]
    rw [this]
  · intro resp hcs
    show Except.ok (pyDecode (detect_encoding resp) resp.body) = _
    have : detect_encoding resp = "utf-8" := by
      unfold detect_encoding
      dsimp only
      rw [hcs]
      split <;> rfl
    rw [this]
    have : pyDecode ("utf-8") resp.body = utf8DecodeReplace resp.body := by
      unfold pyDecode
      rw [if_neg (by simp)]
    rw [this]

/-- Witness for C6: the concrete response declaring `iso-8859-1` is decoded
with the declared charset. -/
theorem detect_encoding_spec_witness :
    (latin1Resp.headers.entries ≠ [] ∧
     latin1Resp.headers.contentCharset = some ("iso-8859-1") ∧
     ("iso-8859-1" : String) ≠ "") ∧
    fetch_html (NetOutcome.ok latin1Resp) =
      Except.ok (pyDecode ("iso-8859-1") latin1Resp.body) :=
  ⟨⟨by decide, rfl, by decide⟩,
   detect_encoding_spec.1 latin1Resp ("iso-8859-1") (by decide) rfl (by decide)⟩

/-- C7: decoding never fails: whatever bytes the body holds, the decode
step yields a code-point sequence and the fetch returns it; an invalid
byte is replaced by the placeholder `U+FFFD` and the fetch still returns
normally. -/
theorem fetch_lossy_decode :
    (∀ resp : Response, ∃ cps, fetch_html (.ok resp) = .ok cps) ∧
    utf8DecodeReplace [0x68, 0xFF, 0x69] = [0x68, 0xFFFD, 0x69] ∧
    fetch_html (.ok ⟨⟨[("Content-Type", "text/html")], none⟩,
        [0x68, 0xFF, 0x69]⟩) = .ok [0x68, 0xFFFD, 0x69] :=
  ⟨fun resp => ⟨_, rfl⟩, by decide, rfl⟩

/-- C8: a fetch whose network interaction exceeds the timeout fails with
the `TimeoutError` exception (the spec's `Timeout`), while a DNS,
connection or transport failure fails with `urllib.error.URLError` (the
spec's `NetworkError`); the timeout error is of the `Timeout` kind and not
of the `NetworkError` kind, which is raised exactly for the transport
failures. -/
theorem fetch_timeout_taxonomy :
    fetch_html .timedOut =
      .error (.timeoutError ("The read operation timed out")) ∧
    (PyExc.timeoutError ("The read operation timed out")).isTimeout = true ∧
    (PyExc.timeoutError ("The read operation timed out")).isNetworkError =
      false ∧
    (∀ m, fetch_html (.netError m) = .error (.urlError m)) ∧
    (∀ m, (PyExc.urlError m).isNetworkError = true ∧
      (PyExc.urlError m).isTimeout = false) :=
  ⟨rfl, rfl, rfl, fun _ => rfl, fun _ => ⟨rfl, rfl⟩⟩

/-- C9: a successful `write_html` stores, at a path directly under the
output directory, exactly the UTF-8 encoding of the text passed in, so
reading the file back and decoding it as UTF-8 restores that text. -/
theorem write_html_roundtrip (fs : FS) (ts : Timestamp) (contents : List Nat)
    (output_dir url : String) (hc : ∀ n ∈ contents, isScalar n) :
    ∃ (fsout : FS) (path : String),
      write_html WriteOutcome.ok fs ts contents output_dir url =
        .ok (fsout, path) ∧
      (∃ filename, path = output_dir ++ "/" ++ filename) ∧
      fsout.lookup path = some (utf8Encode contents) ∧
      ∀ bytes, fsout.lookup path = some bytes →
        utf8DecodeReplace bytes = contents := by
  refine ⟨_, _, rfl, ⟨scrapeFilename ts url, rfl⟩, ?_, ?_⟩
  · simp [List.lookup]
  · intro bytes hb
    simp [List.lookup] at hb
    rw [← hb]
    exact utf8_roundtrip contents hc

/-- Witness for C9: persisting the text `"<html>hi</html>"` stores bytes
that decode back to exactly that text. -/
theorem write_html_roundtrip_witness :
    (∀ n ∈ "<html>hi</html>".data.map Char.toNat, isScalar n) ∧
    ∃ (fsout : FS) (path : String),
      write_html WriteOutcome.ok [] ⟨2026, 10, 12, 13, 45, 9⟩
          ("<html>hi</html>".data.map Char.toNat) "/tmp"
          "https://example.com/a" = .ok (fsout, path) ∧
      (∃ filename, path = "/tmp" ++ "/" ++ filename) ∧
      fsout.lookup path =
        some (utf8Encode ("<html>hi</html>".data.map Char.toNat)) ∧
      ∀ bytes, fsout.lookup path = some bytes →
        utf8DecodeReplace bytes = "<html>hi</html>".data.map Char.toNat :=
  ⟨by decide,
   write_html_roundtrip [] ⟨2026, 10, 12, 13, 45, 9⟩
     ("<html>hi</html>".data.map Char.toNat) "/tmp" "https://example.com/a"
     (by decide)⟩

/-- C1 counterexample: an `IOError` — one of the four declared error kinds,
here a `PermissionError` raised while creating the output directory or
writing the file — is NOT caught by `main`'s
`except (ValueError, urllib.error.URLError, TimeoutError)` clause: the run
crashes with the exception uncaught, prints nothing to standard error and
returns no exit status, contradicting the claim that all four kinds are
converted into a diagnostic line and exit status 1. -/
theorem main_ioerror_uncaught :
    main_run ["https://example.com"] (some 0) 0
      (.ok ⟨⟨[("Content-Type", "text/html")], none⟩, [0x68, 0x69]⟩)
      (.ioFailure ("Permission denied")) ⟨2026, 10, 12, 13, 45, 9⟩ "/tmp" [] =
    ⟨none, [], [], [], some (.osError ("Permission denied"))⟩ := rfl

/-- C1 (amended): the three error kinds the `except` clause lists —
`InvalidInput` (empty URL list, a `ValueError`), `Timeout`
(`TimeoutError`) and `NetworkError` (`urllib.error.URLError`) — are caught
by `main`, which prints the single diagnostic line
`"Scrape failed: "` followed by the error's description to standard error
and returns exit status 1; an `IOError` raised while creating the output
directory or writing the file is outside the clause and propagates as an
uncaught exception instead. -/
theorem main_error_handling :
    (∀ (seed : Option Int) (entropy : Int) (net : NetOutcome)
      (io : WriteOutcome) (ts : Timestamp) (output_dir : String) (fs : FS),
      main_run [] seed entropy net io ts output_dir fs =
        ⟨some 1, [], ["Scrape failed: URL list is empty"], fs, none⟩) ∧
    (∀ (urls : List String) (seed : Option Int) (entropy : Int)
      (io : WriteOutcome) (ts : Timestamp) (output_dir : String) (fs : FS),
      urls ≠ [] →
      main_run urls seed entropy .timedOut io ts output_dir fs =
        ⟨some 1, [], ["Scrape failed: The read operation timed out"], fs,
          none⟩) ∧
    (∀ (urls : List String) (seed : Option Int) (entropy : Int) (m : String)
      (io : WriteOutcome) (ts : Timestamp) (output_dir : String) (fs : FS),
      urls ≠ [] →
      main_run urls seed entropy (.netError m) io ts output_dir fs =
        ⟨some 1, [], ["Scrape failed: " ++ m], fs, none⟩) ∧
    (∀ (urls : List String) (seed : Option Int) (entropy : Int)
      (resp : Response) (m : String) (ts : Timestamp) (output_dir : String)
      (fs : FS),
      urls ≠ [] →
      main_run urls seed entropy (.ok resp) (.ioFailure m) ts output_dir fs =
        ⟨none, [], [], fs, some (.osError m)⟩) := by
  refine ⟨fun _ _ _ _ _ _ _ => rfl, ?_, ?_, ?_⟩
  · intro urls seed entropy io ts output_dir fs h
    match urls, h with
    | u :: rest, _ => rfl
  · intro urls seed entropy m io ts output_dir fs h
    match urls, h with
    | u :: rest, _ => rfl
  · intro urls seed entropy resp m ts output_dir fs h
    match urls, h with
    | u :: rest, _ => rfl

/-- Witness for C1 (amended) at concrete runs: a timeout, a network error
and an uncaught filesystem error. -/
theorem main_error_handling_witness :
    (["https://example.com"] ≠ ([] : List String)) ∧
    main_run ["https://example.com"] none 0 .timedOut .ok
        ⟨2026, 10, 12, 13, 45, 9⟩ "/tmp" [] =
      ⟨some 1, [], ["Scrape failed: The read operation timed out"], [],
        none⟩ ∧
    main_run ["https://example.com"] none 0
        (.netError ("urlopen error temporary failure in name resolution")) .ok
        ⟨2026, 10, 12, 13, 45, 9⟩ "/tmp" [] =
      ⟨some 1, [],
        ["Scrape failed: urlopen error temporary failure in name resolution"],
        [], none⟩ ∧
    main_run ["https://example.com"] none 0
        (.ok ⟨⟨[("Content-Type", "text/html")], none⟩, [0x68, 0x69]⟩)
        (.ioFailure ("Permission denied")) ⟨2026, 10, 12, 13, 45, 9⟩ "/tmp" [] =
      ⟨none, [], [], [], some (.osError ("Permission denied"))⟩ :=
  ⟨by decide,
   main_error_handling.2.1 ["https://example.com"] none 0 .ok
     ⟨2026, 10, 12, 13, 45, 9⟩ "/tmp" [] (by decide),
   main_error_handling.2.2.1 ["https://example.com"] none 0
     "urlopen error temporary failure in name resolution" .ok
     ⟨2026, 10, 12, 13, 45, 9⟩ "/tmp" [] (by decide),
   main_error_handling.2.2.2 ["https://example.com"] none 0
     ⟨⟨[("Content-Type", "text/html")], none⟩, [0x68, 0x69]⟩
     "Permission denied" ⟨2026, 10, 12, 13, 45, 9⟩ "/tmp" [] (by decide)⟩
